import Mathlib

/-!
# Verification of `pydlm/modeler/longSeason.py`

A shallow embedding of the `longSeason` component of PyDLM: the cyclic
state machine that generates, extends, and truncates the one-hot feature
matrix, together with the stateful component operations
(`__init__`/`createFeatureMatrix`, `appendNewData`, `popout`).

Python lists are modelled with value semantics.  The two places where the
Python code is entangled with language-level semantics are modelled
explicitly and documented at the definition site:
* the comparison `currentState == 0` in `createFeatureMatrix`, which
  compares a Python `list` to the `int` `0` (never true in Python);
* the call `self.features.extend(newFeatures)` in `appendNewData`, where
  `newFeatures` is the 2-tuple returned by `createFeatureMatrix`, so the
  `extend` appends exactly two elements (the list of rows and the state
  list) to the feature matrix.
-/

namespace LongSeasonSpec

/-- The component state `currentState`, the Python list `[outer, inner]`:
`outer` is the active season index, `inner` the number of steps into it. -/
structure LSState where
  outer : Nat
  inner : Nat
deriving DecidableEq, Repr

/-- The Python expression `currentState == 0` at line 93 of
`longSeason.py`: an equality test between a Python `list` (the state pair)
and the `int` `0`.  In Python a list never compares equal to an int, so
this test is `false` for every state value. -/
def stateListEqIntZero (_s : LSState) : Bool := false

/-- One iteration of the generation loop in `createFeatureMatrix`, acting
on the state only:
`currentState[1] = (currentState[1] + 1) % stay`, then
`if currentState == 0: currentState[0] = (currentState[0] + 1) % period`.
The guard compares the state list to the int `0` (see
`stateListEqIntZero`), so the outer index is in fact never changed. -/
def stateAdvance (period stay : Nat) (s : LSState) : LSState :=
  let s1 : LSState := { s with inner := (s.inner + 1) % stay }
  if stateListEqIntZero s1 then
    { s1 with outer := (s1.outer + 1) % period }
  else
    s1

/-- The row built by the loop body:
`new_feature = [0] * period; new_feature[idx] = 1`. -/
def oneHotRow (period idx : Nat) : List Nat :=
  (List.replicate period 0).set idx 1

/-- `longSeason.createFeatureMatrix(period, stay, n, state)`: runs the
generation loop `n` times, each iteration advancing the state, building
the one-hot row at the (new) outer index and appending it; returns the
rows in order together with the final state. -/
def createFeatureMatrix (period stay : Nat) :
    Nat → LSState → List (List Nat) × LSState
  | 0, state => ([], state)
  | n + 1, state =>
    let s' := stateAdvance period stay state
    let row := oneHotRow period s'.outer
    let rest := createFeatureMatrix period stay n s'
    (row :: rest.1, rest.2)

/-- The state rollback performed at lines 158–165 of `popout`:
if `inner == 0` then `inner := stay - 1` and `outer` wraps back
(`period - 1` when it was `0`, else `outer - 1`); otherwise just
`inner := inner - 1`. -/
def stateRetreat (period stay : Nat) (s : LSState) : LSState :=
  if s.inner = 0 then
    if s.outer = 0 then ⟨period - 1, stay - 1⟩
    else ⟨s.outer - 1, stay - 1⟩
  else
    ⟨s.outer, s.inner - 1⟩

/-- An element of `self.features`.  After construction every element is a
flat list of numbers (a feature row); `appendNewData` additionally pushes
a nested list of rows (see `appendNewData`), so the element type must
cover both shapes of Python list. -/
inductive Cell where
  /-- A flat Python list of integers (a feature row, or the state list
  `[outer, inner]` that `appendNewData` pushes into the matrix). -/
  | row (r : List Nat)
  /-- A nested Python list: a list of feature rows. -/
  | mat (rs : List (List Nat))
deriving DecidableEq, Repr

/-- The `longSeason` component: `period`, `stay`, the feature matrix
`self.features`, the observation count `self.n`, and
`self.currentState`.  The `discount` and `name` fields are opaque
pass-throughs to the `dynamic` base class and carry no behaviour here. -/
structure LongSeason where
  period : Nat
  stay : Nat
  features : List Cell
  n : Nat
  currentState : LSState
deriving DecidableEq, Repr

/-- Errors raised by the component.  `configurationError` is the
exception raised by `checkDataLength` (the construction-time length
check); `emptyMatrixError` is the exception raised by
`self.features.pop()` when the feature matrix is empty. -/
inductive LSError where
  | configurationError
  | emptyMatrixError
deriving DecidableEq, Repr

/-- Modelled from the spec: the `dynamic` base class (not part of the
sources here) sets the regression dimension `self.d` to the width of the
feature rows, which is `period`, and `self.n` to `len(features)`.
`longSeason.__init__`: builds the feature matrix from the initial state
`[0, 0]`, hands it to `dynamic.__init__`, then runs `checkDataLength`,
which raises when `self.d >= self.n`. -/
def longSeasonInit (dataLen period stay : Nat) : Except LSError LongSeason :=
  let fm := createFeatureMatrix period stay dataLen ⟨0, 0⟩
  if period ≥ fm.1.length then .error .configurationError
  else
    .ok { period := period
          stay := stay
          features := fm.1.map Cell.row
          n := fm.1.length
          currentState := fm.2 }

/-- `longSeason.appendNewData(newData)` with `len(newData) = newDataLen`.
`createFeatureMatrix` is called on `self.currentState`; because the state
list is mutated in place, `self.currentState` ends up advanced by
`newDataLen` steps.  The returned value `newFeatures` is the 2-tuple
`(features, currentState)`, and `self.features.extend(newFeatures)`
appends its two components — the list of new rows and the state list —
as two elements of the matrix.  Finally `self.n = len(self.features)`. -/
def appendNewData (c : LongSeason) (newDataLen : Nat) : LongSeason :=
  let fm := createFeatureMatrix c.period c.stay newDataLen c.currentState
  let features :=
    c.features ++ [Cell.mat fm.1, Cell.row [fm.2.outer, fm.2.inner]]
  { c with
    features := features
    n := features.length
    currentState := fm.2 }

/-- `longSeason.popout(date)`: prints a diagnostic (no state effect),
then `self.features.pop()` — which raises on an empty list before any
field is mutated — then `self.n -= 1` and the state rollback of lines
158–165.  The `date` argument is never read. -/
def popout (c : LongSeason) (_date : Nat) : Except LSError LongSeason :=
  if c.features.isEmpty then
    .error .emptyMatrixError
  else
    .ok { c with
          features := c.features.dropLast
          n := c.n - 1
          currentState := stateRetreat c.period c.stay c.currentState }

end LongSeasonSpec

namespace LongSeasonSpec

/-- Spec-side predicate, stated from the spec's words: a FeatureRow is a
flat sequence of exactly `period` numbers with exactly one entry equal
to 1 and all other entries 0.  Used to compare the cells the code
actually places in the matrix against the spec's one-hot property. -/
def specOneHotRow (period : Nat) : Cell → Bool
  | .row r => r.length == period && r.count 1 == 1 &&
      r.all fun x => x == 0 || x == 1
  | .mat _ => false

/-- A mutation operation on an already-constructed component: an
`appendNewData` call with a given number of new points, or a `popout`
call with a given date argument. -/
inductive LSOp where
  | append (newDataLen : Nat)
  | pop (date : Nat)
deriving DecidableEq, Repr

/-- Run one mutation operation; a raised exception becomes `error`. -/
def runOp (c : LongSeason) : LSOp → Except LSError LongSeason
  | .append k => .ok (appendNewData c k)
  | .pop d => popout c d

/-- Run a sequence of mutation operations, propagating the first raised
exception (in Python the exception aborts the remaining calls). -/
def runOps : LongSeason → List LSOp → Except LSError LongSeason
  | c, [] => .ok c
  | c, op :: ops =>
    match runOp c op with
    | .error e => .error e
    | .ok c' => runOps c' ops

/-- The generation loop appends exactly one row per iteration, so
`createFeatureMatrix` returns `n` rows. -/
theorem createFeatureMatrix_length (period stay : Nat) :
    ∀ (n : Nat) (state : LSState),
      (createFeatureMatrix period stay n state).1.length = n
  | 0, _ => rfl
  | n + 1, state => by
    simp [createFeatureMatrix, createFeatureMatrix_length period stay n]

/-- C1: the round-trip identity `retreat(advance(s)) == s` fails on the
code: with `period = 4`, `stay = 7`, the valid state `(0, 6)` advances to
`(0, 0)` (the outer index never increments because `currentState == 0`
compares a list to an int), and the rollback then yields `(3, 6)`. -/
theorem C1_roundtrip_fails_on_code :
    stateRetreat 4 7 (stateAdvance 4 7 ⟨0, 6⟩) = ⟨3, 6⟩ ∧
      stateRetreat 4 7 (stateAdvance 4 7 ⟨0, 6⟩) ≠ (⟨0, 6⟩ : LSState) := by
  constructor <;> decide

/-- C2: with `period = 4`, `stay = 7`, initial state `(0, 0)`, the code
generates all 14 rows one-hot at index 0 — the outer index never
advances — whereas the claim requires rows 7–13 one-hot at index 1 and
row 14 one-hot at index 2. -/
theorem C2_outer_never_advances :
    (createFeatureMatrix 4 7 14 ⟨0, 0⟩).1 =
      List.replicate 14 [1, 0, 0, 0] := by
  decide

/-- C3: `appendNewData` does not append one row per new data point.
Constructing with 5 observations (`period = 4`, `stay = 7`) and appending
3 new points grows the matrix to 7 elements (not 8): the code extends
`self.features` with the 2-tuple returned by `createFeatureMatrix`,
adding exactly two elements whatever the count — even a count of 0 grows
the matrix to 7 elements instead of being a no-op. -/
theorem C3_append_adds_two_cells :
    ((longSeasonInit 5 4 7).toOption.map fun c =>
        ((appendNewData c 3).features.length, (appendNewData c 3).n,
          (appendNewData c 0).features.length)) =
      some (7, 7, 7) := by
  decide

/-- C4: appending 3 rows and popping 3 times does not restore the
component.  Constructing with 5 observations (`period = 4`, `stay = 7`),
appending 3 and popping 3 times leaves a matrix of length 4 (the append
added only 2 tuple elements while the pops removed 3 cells) and state
`(3, 5)` instead of the post-construction length 5 and state `(0, 5)`. -/
theorem C4_append_pop_not_inverse :
    ((do
        let c0 ← longSeasonInit 5 4 7
        let c1 := appendNewData c0 3
        let c2 ← popout c1 0
        let c3 ← popout c2 0
        popout c3 0 : Except LSError LongSeason).toOption.map fun c =>
          (c.features.length, c.currentState)) =
      some (4, ⟨3, 5⟩) := by
  decide

/-- C5: construction raises the `checkDataLength` exception exactly when
`period >= n`, where `n` is the number of observations supplied
(`self.d`, set by the base class to the feature width `period`, is
compared against `self.n = len(features) = dataLen`). -/
theorem C5_config_error_iff (dataLen period stay : Nat)
    (hp : 1 ≤ period) (hs : 1 ≤ stay) :
    longSeasonInit dataLen period stay = .error .configurationError ↔
      period ≥ dataLen := by
  unfold longSeasonInit
  simp only [createFeatureMatrix_length]
  split
  · next h => exact iff_of_true rfl h
  · next h => exact iff_of_false (fun hc => Except.noConfusion hc) h

/-- Witness for C5: `period = 10` with 10 observations raises the
configuration error (`stay = 7`). -/
theorem C5_witness :
    longSeasonInit 10 10 7 = .error .configurationError :=
  (C5_config_error_iff 10 10 7 (by decide) (by decide)).mpr (by decide)

/-- C6: `popout` on a component whose feature matrix is empty raises the
empty-matrix exception (`self.features.pop()` fails before `self.n` or
the state is touched). -/
theorem C6_pop_empty_raises (c : LongSeason) (date : Nat)
    (h : c.features = []) :
    popout c date = .error .emptyMatrixError := by
  simp [popout, h]

/-- Witness for C6: a component with an empty matrix. -/
theorem C6_witness :
    popout ⟨4, 7, [], 0, ⟨0, 0⟩⟩ 0 = .error .emptyMatrixError :=
  C6_pop_empty_raises ⟨4, 7, [], 0, ⟨0, 0⟩⟩ 0 rfl

/-- C7: the elements `appendNewData` places in the matrix are not
one-hot rows.  After constructing with 5 observations
(`period = 4`, `stay = 7`) and appending 1 new point, the two cells
placed at indices 5 and 6 are the nested list `[[1,0,0,0]]` and the
state list `[0, 6]`; neither satisfies the spec's one-hot row
property. -/
theorem C7_append_places_non_onehot :
    ((longSeasonInit 5 4 7).toOption.map fun c =>
        ((appendNewData c 1).features.getD 5 (Cell.row []),
          (appendNewData c 1).features.getD 6 (Cell.row []))) =
        some (Cell.mat [[1, 0, 0, 0]], Cell.row [0, 6]) ∧
      specOneHotRow 4 (Cell.mat [[1, 0, 0, 0]]) = false ∧
      specOneHotRow 4 (Cell.row [0, 6]) = false := by
  refine ⟨by decide, by decide, by decide⟩

/-- Construction produces a component whose matrix length equals `n`. -/
theorem longSeasonInit_length_inv {dataLen period stay : Nat}
    {c : LongSeason} (h : longSeasonInit dataLen period stay = .ok c) :
    c.features.length = c.n := by
  simp only [longSeasonInit] at h
  split at h
  · exact Except.noConfusion h
  · cases h
    simp

/-- Each successful mutation operation preserves
`len(features) == n`. -/
theorem runOp_length_inv {c c' : LongSeason} {op : LSOp}
    (hc : c.features.length = c.n) (h : runOp c op = .ok c') :
    c'.features.length = c'.n := by
  cases op with
  | append k =>
    simp only [runOp] at h
    cases h
    rfl
  | pop d =>
    simp only [runOp, popout] at h
    split at h
    · exact Except.noConfusion h
    · cases h
      simp [List.length_dropLast, hc]

/-- Any successful run of mutation operations preserves
`len(features) == n`. -/
theorem runOps_length_inv {ops : List LSOp} :
    ∀ {c c' : LongSeason}, c.features.length = c.n →
      runOps c ops = .ok c' → c'.features.length = c'.n := by
  induction ops with
  | nil =>
    intro c c' hc h
    cases h
    exact hc
  | cons op ops ih =>
    intro c c' hc h
    unfold runOps at h
    split at h
    · exact Except.noConfusion h
    · next heq => exact ih (runOp_length_inv hc heq) h

/-- C8: after construction and any sequence of `appendNewData`/`popout`
calls that completes without raising, the length of the feature matrix
equals the component's observation count `n`.  (`appendNewData` resets
`n` to `len(features)` and `popout` removes one cell while decrementing
`n`, so the equality is maintained even though the append is buggy.) -/
theorem C8_length_invariant (dataLen period stay : Nat) (ops : List LSOp)
    (c0 c : LongSeason)
    (h0 : longSeasonInit dataLen period stay = .ok c0)
    (h : runOps c0 ops = .ok c) :
    c.features.length = c.n :=
  runOps_length_inv (longSeasonInit_length_inv h0) h

/-- Witness for C8: construct with 5 observations (`period = 4`,
`stay = 7`) and pop once. -/
theorem C8_witness :
    (⟨4, 7, [Cell.row [1, 0, 0, 0], Cell.row [1, 0, 0, 0],
        Cell.row [1, 0, 0, 0], Cell.row [1, 0, 0, 0]], 4,
        ⟨0, 4⟩⟩ : LongSeason).features.length =
      (⟨4, 7, [Cell.row [1, 0, 0, 0], Cell.row [1, 0, 0, 0],
        Cell.row [1, 0, 0, 0], Cell.row [1, 0, 0, 0]], 4,
        ⟨0, 4⟩⟩ : LongSeason).n :=
  C8_length_invariant 5 4 7 [LSOp.pop 0]
    ⟨4, 7, [Cell.row [1, 0, 0, 0], Cell.row [1, 0, 0, 0],
      Cell.row [1, 0, 0, 0], Cell.row [1, 0, 0, 0],
      Cell.row [1, 0, 0, 0]], 5, ⟨0, 5⟩⟩
    ⟨4, 7, [Cell.row [1, 0, 0, 0], Cell.row [1, 0, 0, 0],
      Cell.row [1, 0, 0, 0], Cell.row [1, 0, 0, 0]], 4, ⟨0, 4⟩⟩
    rfl rfl

/-- The forward transition keeps the state in bounds: the inner counter
is reduced mod `stay` and the outer index is left unchanged. -/
theorem stateAdvance_bounds {period stay : Nat} {s : LSState}
    (hs : 1 ≤ stay) (ho : s.outer < period) :
    (stateAdvance period stay s).outer < period ∧
      (stateAdvance period stay s).inner < stay := by
  unfold stateAdvance stateListEqIntZero
  simp only [Bool.false_eq_true, if_false]
  exact ⟨ho, Nat.mod_lt _ hs⟩

/-- The final state of the generation loop stays in bounds. -/
theorem createFeatureMatrix_state_bounds {period stay : Nat}
    (hs : 1 ≤ stay) :
    ∀ (n : Nat) (state : LSState),
      state.outer < period → state.inner < stay →
      (createFeatureMatrix period stay n state).2.outer < period ∧
        (createFeatureMatrix period stay n state).2.inner < stay
  | 0, _, ho, hi => ⟨ho, hi⟩
  | n + 1, state, ho, hi => by
    have h := @stateAdvance_bounds period stay state hs ho
    simpa [createFeatureMatrix] using
      createFeatureMatrix_state_bounds hs n
        (stateAdvance period stay state) h.1 h.2

/-- The rollback of `popout` keeps the state in bounds. -/
theorem stateRetreat_bounds {period stay : Nat} {s : LSState}
    (hp : 1 ≤ period) (hs : 1 ≤ stay) (ho : s.outer < period)
    (hi : s.inner < stay) :
    (stateRetreat period stay s).outer < period ∧
      (stateRetreat period stay s).inner < stay := by
  unfold stateRetreat
  split
  · split
    · exact ⟨show period - 1 < period by omega,
        show stay - 1 < stay by omega⟩
    · exact ⟨show s.outer - 1 < period by omega,
        show stay - 1 < stay by omega⟩
  · exact ⟨show s.outer < period from ho, show s.inner - 1 < stay by omega⟩

/-- Well-formedness of a component's scalar state: positive parameters
and a state within bounds. -/
def stateWF (c : LongSeason) : Prop :=
  1 ≤ c.period ∧ 1 ≤ c.stay ∧
    c.currentState.outer < c.period ∧ c.currentState.inner < c.stay

/-- Each successful mutation operation preserves state
well-formedness. -/
theorem runOp_stateWF {c c' : LongSeason} {op : LSOp}
    (hc : stateWF c) (h : runOp c op = .ok c') : stateWF c' := by
  obtain ⟨hp, hs, ho, hi⟩ := hc
  cases op with
  | append k =>
    simp only [runOp] at h
    cases h
    have hb := @createFeatureMatrix_state_bounds c.period c.stay hs k c.currentState ho hi
    exact ⟨hp, hs, hb.1, hb.2⟩
  | pop d =>
    simp only [runOp, popout] at h
    split at h
    · exact Except.noConfusion h
    · cases h
      have hb := stateRetreat_bounds hp hs ho hi
      exact ⟨hp, hs, hb.1, hb.2⟩

/-- Any successful run of mutation operations preserves state
well-formedness. -/
theorem runOps_stateWF {ops : List LSOp} :
    ∀ {c c' : LongSeason}, stateWF c → runOps c ops = .ok c' →
      stateWF c' := by
  induction ops with
  | nil =>
    intro c c' hc h
    cases h
    exact hc
  | cons op ops ih =>
    intro c c' hc h
    unfold runOps at h
    split at h
    · exact Except.noConfusion h
    · next heq => exact ih (runOp_stateWF hc heq) h

/-- Construction from the initial state `[0, 0]` yields a well-formed
component state when `period ≥ 1` and `stay ≥ 1`. -/
theorem longSeasonInit_stateWF {dataLen period stay : Nat}
    {c : LongSeason} (hp : 1 ≤ period) (hs : 1 ≤ stay)
    (h : longSeasonInit dataLen period stay = .ok c) : stateWF c := by
  simp only [longSeasonInit] at h
  split at h
  · exact Except.noConfusion h
  · cases h
    have hb := @createFeatureMatrix_state_bounds period stay hs dataLen ⟨0, 0⟩ hp hs
    exact ⟨hp, hs, hb.1, hb.2⟩

/-- C9: starting from the initial state `(0, 0)` with `period ≥ 1` and
`stay ≥ 1`, construction and every successful `appendNewData`/`popout`
call keep the stored state within `outer ∈ [0, period)` and
`inner ∈ [0, stay)`. -/
theorem C9_state_bounds (dataLen period stay : Nat) (ops : List LSOp)
    (c0 c : LongSeason) (hp : 1 ≤ period) (hs : 1 ≤ stay)
    (h0 : longSeasonInit dataLen period stay = .ok c0)
    (h : runOps c0 ops = .ok c) :
    c.currentState.outer < c.period ∧ c.currentState.inner < c.stay :=
  have hw := runOps_stateWF (longSeasonInit_stateWF hp hs h0) h
  ⟨hw.2.2.1, hw.2.2.2⟩

/-- Witness for C9: construct with 5 observations (`period = 4`,
`stay = 7`) and pop once. -/
theorem C9_witness :
    (⟨4, 7, [Cell.row [1, 0, 0, 0], Cell.row [1, 0, 0, 0],
        Cell.row [1, 0, 0, 0], Cell.row [1, 0, 0, 0]], 4,
        ⟨0, 4⟩⟩ : LongSeason).currentState.outer <
      (⟨4, 7, [Cell.row [1, 0, 0, 0], Cell.row [1, 0, 0, 0],
        Cell.row [1, 0, 0, 0], Cell.row [1, 0, 0, 0]], 4,
        ⟨0, 4⟩⟩ : LongSeason).period ∧
      (⟨4, 7, [Cell.row [1, 0, 0, 0], Cell.row [1, 0, 0, 0],
        Cell.row [1, 0, 0, 0], Cell.row [1, 0, 0, 0]], 4,
        ⟨0, 4⟩⟩ : LongSeason).currentState.inner <
        (⟨4, 7, [Cell.row [1, 0, 0, 0], Cell.row [1, 0, 0, 0],
          Cell.row [1, 0, 0, 0], Cell.row [1, 0, 0, 0]], 4,
          ⟨0, 4⟩⟩ : LongSeason).stay :=
  C9_state_bounds 5 4 7 [LSOp.pop 0]
    ⟨4, 7, [Cell.row [1, 0, 0, 0], Cell.row [1, 0, 0, 0],
      Cell.row [1, 0, 0, 0], Cell.row [1, 0, 0, 0],
      Cell.row [1, 0, 0, 0]], 5, ⟨0, 5⟩⟩
    ⟨4, 7, [Cell.row [1, 0, 0, 0], Cell.row [1, 0, 0, 0],
      Cell.row [1, 0, 0, 0], Cell.row [1, 0, 0, 0]], 4, ⟨0, 4⟩⟩
    (by decide) (by decide) rfl rfl

/-- C10: `popout` never reads its `date` argument — the diagnostic
print, the tail removal, the decrement of `n` and the state rollback are
all independent of it, so any two date values produce identical
results. -/
theorem C10_popout_date_independent (c : LongSeason) (d1 d2 : Nat) :
    popout c d1 = popout c d2 := rfl

end LongSeasonSpec
